import Mathlib

set_option maxRecDepth 16384

/-!
Verification development for the zuth-ts-package SDK.

The definitions below are a shallow embedding of the SDK's source files
(`src/security.ts`, `src/client.ts`, `src/oauth.ts`, `src/auth.ts`,
`src/index.ts`).  Network I/O is made explicit: every function that may
perform one HTTP POST takes the server's answer to that POST as an
`oracle` argument and returns, besides its result, the number of
exchange-endpoint calls it issued.  Randomness (the CSPRNG behind
`generateOAuthState`) is made explicit as a byte-list / string argument.

The platform's WHATWG `URL` / `URLSearchParams` library (not part of this
repository) is modelled below for absolute hierarchical URLs with the
usual `scheme://host[:port][/path][?query]` shape; percent-decoding is
modelled byte-for-byte (each decoded byte becomes one character), which
agrees with the platform on ASCII data.
-/

/-! ## WHATWG URL / URLSearchParams model (platform library) -/

/-- One decoded hexadecimal digit, `none` when the character is not a
hexadecimal digit. -/
def fromHexDigit (c : Char) : Option Nat :=
  if 48 ≤ c.toNat ∧ c.toNat ≤ 57 then some (c.toNat - 48)
  else if 97 ≤ c.toNat ∧ c.toNat ≤ 102 then some (c.toNat - 87)
  else if 65 ≤ c.toNat ∧ c.toNat ≤ 70 then some (c.toNat - 55)
  else none

/-- Model of `application/x-www-form-urlencoded` percent-decoding: `+` becomes a
space, `%XY` becomes the byte `0xXY`, everything else is kept. -/
def percentDecode : List Char → List Char
  | [] => []
  | '%' :: a :: b :: rest =>
    match fromHexDigit a, fromHexDigit b with
    | some ha, some hb => Char.ofNat (16 * ha + hb) :: percentDecode rest
    | _, _ => '%' :: percentDecode (a :: b :: rest)
  | '+' :: rest => ' ' :: percentDecode rest
  | c :: rest => c :: percentDecode rest

/-- Split a character list on every occurrence of `sep`. -/
def splitOnChar (sep : Char) : List Char → List (List Char)
  | [] => [[]]
  | c :: rest =>
    let r := splitOnChar sep rest
    if c = sep then [] :: r
    else
      match r with
      | [] => [[c]]
      | piece :: more => (c :: piece) :: more

/-- Decode one `name=value` piece of a query string. -/
def parseQueryPair (piece : List Char) : String × String :=
  let name := piece.takeWhile (fun c => c ≠ '=')
  let value := (piece.dropWhile (fun c => c ≠ '=')).drop 1
  (String.mk (percentDecode name), String.mk (percentDecode value))

/-- Model of `URLSearchParams` parsing of a raw query string (no leading `?`):
split on `&`, skip empty pieces, decode each piece. -/
def parseQuery (raw : String) : List (String × String) :=
  (((splitOnChar '&' raw.toList)).filter (fun piece => piece ≠ [])).map parseQueryPair

/-- The WHATWG URL record, restricted to the components this SDK reads.
`protocol` is the lowercased scheme with its trailing colon, `port` is
`""` when absent or equal to the scheme's default, `searchRaw` is the
query string without its leading `?`. -/
structure URL where
  protocol : String
  hostname : String
  port : String
  pathname : String
  searchRaw : String
deriving Repr, DecidableEq

/-- Model of `searchParams.get(name)`: the first value recorded for `name`. -/
def URL.searchGet (u : URL) (name : String) : Option String :=
  (((parseQuery u.searchRaw).filter (fun p => p.1 = name)).head?).map (fun p => p.2)

/-- Default port of the special schemes. -/
def defaultPort (protocol : String) : Option Nat :=
  if protocol = "http:" then some 80
  else if protocol = "https:" then some 443
  else if protocol = "ws:" then some 80
  else if protocol = "wss:" then some 443
  else if protocol = "ftp:" then some 21
  else none

/-- ASCII letter test. -/
def isAsciiAlpha (c : Char) : Bool :=
  (65 ≤ c.toNat ∧ c.toNat ≤ 90) ∨ (97 ≤ c.toNat ∧ c.toNat ≤ 122)

/-- Characters the model forbids inside a hostname. -/
def hostForbidden (c : Char) : Bool :=
  c = ' ' ∨ c = '#' ∨ c = '/' ∨ c = ':' ∨ c = '?' ∨ c = '@' ∨
  c = '[' ∨ c = ']' ∨ c = '\\' ∨ c = '^' ∨ c = '|' ∨ c = '<' ∨
  c = '>' ∨ c = '"' ∨ c = '%'

/-- Split a character list at the first occurrence of `://`. -/
def splitAtSchemeSep : List Char → Option (List Char × List Char)
  | [] => none
  | ':' :: '/' :: '/' :: rest => some ([], rest)
  | c :: rest =>
    match splitAtSchemeSep rest with
    | none => none
    | some (a, b) => some (c :: a, b)

/-- Decimal digit list to number. -/
def digitsToNat (cs : List Char) : Nat :=
  cs.foldl (fun acc c => 10 * acc + (c.toNat - 48)) 0

/-- The `new URL(input)` constructor, modelled for absolute hierarchical
URLs; `none` corresponds to the constructor throwing `Invalid URL`. -/
def parseURL (input : String) : Option URL :=
  match splitAtSchemeSep input.toList with
  | none => none
  | some (schemeRaw, restCs) =>
    let scheme := String.mk (schemeRaw.map Char.toLower)
    if schemeRaw = [] then none
    else if ¬ isAsciiAlpha (schemeRaw.headD 'a') then none
    else if ¬ schemeRaw.all
        (fun c => isAsciiAlpha c ∨ c.isDigit ∨ c = '+' ∨ c = '-' ∨ c = '.') then none
    else
      let authority := restCs.takeWhile (fun c => c ≠ '/' ∧ c ≠ '?' ∧ c ≠ '#')
      let afterAuth := restCs.dropWhile (fun c => c ≠ '/' ∧ c ≠ '?' ∧ c ≠ '#')
      -- userinfo is everything up to the last at sign
      let hostPort := (authority.reverse.takeWhile (fun c => c ≠ '@')).reverse
      let hostCs := hostPort.takeWhile (fun c => c ≠ ':')
      let portCs := (hostPort.dropWhile (fun c => c ≠ ':')).drop 1
      let hasColon := hostPort.any (fun c => c = ':')
      if hostCs = [] then none
      else if hostCs.any hostForbidden then none
      else if hasColon ∧ ¬ portCs.all Char.isDigit then none
      else if hasColon ∧ portCs ≠ [] ∧ 65535 < digitsToNat portCs then none
      else
        let protocol := scheme ++ ":"
        let portVal : Option Nat :=
          if hasColon ∧ portCs ≠ [] then some (digitsToNat portCs) else none
        let port : String :=
          match portVal with
          | none => ""
          | some n => if defaultPort protocol = some n then "" else toString n
        let pathCs := afterAuth.takeWhile (fun c => c ≠ '?' ∧ c ≠ '#')
        let afterPath := afterAuth.dropWhile (fun c => c ≠ '?' ∧ c ≠ '#')
        let queryCs :=
          if afterPath.headD ' ' = '?' then (afterPath.drop 1).takeWhile (fun c => c ≠ '#')
          else []
        some
          { protocol := protocol
            hostname := String.mk (hostCs.map Char.toLower)
            port := port
            pathname := if pathCs = [] then "/" else String.mk pathCs
            searchRaw := String.mk queryCs }

/-- Model of `url.host`: hostname plus non-default port. -/
def URL.host (u : URL) : String :=
  u.hostname ++ (if u.port = "" then "" else ":" ++ u.port)

/-- Model of `url.origin` for hierarchical schemes: `protocol//host`. -/
def URL.origin (u : URL) : String :=
  u.protocol ++ "//" ++ u.host

/-- UTF-8 bytes of a character. -/
def utf8BytesOfChar (c : Char) : List Nat :=
  let n := c.toNat
  if n < 128 then [n]
  else if n < 2048 then [192 + n / 64, 128 + n % 64]
  else if n < 65536 then [224 + n / 4096, 128 + n / 64 % 64, 128 + n % 64]
  else [240 + n / 262144, 128 + n / 4096 % 64, 128 + n / 64 % 64, 128 + n % 64]

/-- Uppercase hexadecimal digit. -/
def hexUpper (n : Nat) : Char :=
  if n < 10 then Char.ofNat (48 + n) else Char.ofNat (55 + n)

/-- Model of `application/x-www-form-urlencoded` serialization of one character:
space becomes `+`, alphanumerics and `*-._` stay, everything else is
percent-encoded per UTF-8 byte. -/
def formEncodeChar (c : Char) : String :=
  if c = ' ' then "+"
  else if c.isAlphanum ∨ c = '*' ∨ c = '-' ∨ c = '.' ∨ c = '_' then String.mk [c]
  else String.mk ((utf8BytesOfChar c).flatMap
    (fun b => ['%', hexUpper (b / 16), hexUpper (b % 16)]))

/-- Model of `application/x-www-form-urlencoded` serialization of a string. -/
def formEncode (s : String) : String :=
  String.join (s.toList.map formEncodeChar)

/-- Model of `URLSearchParams.toString()` over an ordered list of pairs. -/
def serializePairs : List (String × String) → String
  | [] => ""
  | [p] => formEncode p.1 ++ "=" ++ formEncode p.2
  | p :: q :: rest => formEncode p.1 ++ "=" ++ formEncode p.2 ++ "&" ++ serializePairs (q :: rest)

/-! ## `src/types/index.ts` -/

/-- JavaScript truthiness of an optional string: `undefined`/`null` and
the empty string are falsy. -/
def truthyStr : Option String → Bool
  | none => false
  | some s => s ≠ ""

/-- JavaScript `o || d` for an optional string field with falsy default handling. -/
def truthyOr (o : Option String) (d : String) : String :=
  match o with
  | none => d
  | some s => if s = "" then d else s

/-- JavaScript `o || d` for an optional numeric field: `0` is falsy. -/
def truthyOrNat (o : Option Nat) (d : Nat) : Nat :=
  match o with
  | none => d
  | some n => if n = 0 then d else n

structure ZuthConfig where
  baseUrl : String
  clientId : Option String := none
  clientSecret : Option String := none
  redirectUri : Option String := none
  timeout : Option Nat := none
deriving Repr, DecidableEq

structure OAuthAuthorizeParams where
  clientId : String
  redirectUri : String
  responseType : Option String := none
  scope : Option String := none
  state : Option String := none
deriving Repr, DecidableEq

structure OAuthAuthorizationResult where
  url : String
  state : String
deriving Repr, DecidableEq

structure OAuthTokenRequest where
  code : String
  clientId : String
  clientSecret : Option String := none
  redirectUri : String
  grantType : Option String := none
deriving Repr, DecidableEq

structure OAuthTokenResponse where
  access_token : String
  token_type : String
  expires_in : Nat
  refresh_token : Option String := none
  scope : Option String := none
  id_token : Option String := none
deriving Repr, DecidableEq

/-- The server's structured error payload (`ZuthError` in `types/index.ts`),
with every field optional because the interceptor defends against its
absence. -/
structure ZuthErrorPayload where
  error : Option String := none
  message : Option String := none
  statusCode : Option Nat := none
  details : Option String := none
deriving Repr, DecidableEq

/-- The class `ZuthSDKError` from `types/index.ts`: the one normalized failure shape. -/
structure ZuthSDKError where
  message : String
  statusCode : Nat
  error : String
  details : Option String := none
deriving Repr, DecidableEq

/-! ## Error taxonomy

Every `throw new Error(...)` site of the embedded source gets one
constructor, carrying the data interpolated into its message. -/

inductive ZuthErr where
  /-- `security.ts`: `OAuth state parameter is missing ...` -/
  | csrfMissing
  /-- `security.ts`: `OAuth state parameter mismatch ...` -/
  | csrfMismatch
  /-- `security.ts`: `Redirect URI ... is not in the allowed origins list ...` -/
  | redirectNotAllowed (redirectUri : String) (allowedOrigins : List String)
  /-- `security.ts`: `Invalid redirect URI: ...` -/
  | invalidRedirectUri (redirectUri : String)
  /-- `security.ts`: `Insecure URL detected. HTTPS is required in production. ...` -/
  | insecureUrl
  /-- `security.ts`: `Invalid URL: ...` -/
  | invalidUrl (url : String)
  /-- `oauth.ts`: `OAuth error: ...` (provider-reported error code) -/
  | oauthError (code : String)
  /-- `oauth.ts`: `Authorization code not found in callback URL` -/
  | codeNotFound
  /-- `client.ts`: a normalized `ZuthSDKError` thrown by the response interceptor -/
  | sdk (e : ZuthSDKError)
  /-- `auth.ts`: `Invalid email format` -/
  | invalidEmail
  /-- `auth.ts`: `Password must be at least 8 characters long` -/
  | invalidPassword
  /-- `oauth.ts`: `redirectToAuthorization can only be used in browser environments` -/
  | environmentErr
  /-- `index.ts`: `baseUrl is required in Zuth configuration` -/
  | configErr
deriving Repr, DecidableEq

/-- The spec's `CsrfError` kind: the errors raised by `validateOAuthState`. -/
def IsCsrfError : ZuthErr → Prop
  | .csrfMissing => True
  | .csrfMismatch => True
  | _ => False

/-- The spec's `RedirectError` kind: the errors raised by `validateRedirectUri`
(both the allow-list rejection and the malformed-URI rejection are plain
`Error`s raised by that function in the source). -/
def IsRedirectError : ZuthErr → Prop
  | .redirectNotAllowed _ _ => True
  | .invalidRedirectUri _ => True
  | _ => False

/-- The spec's `InsecureUrlError` kind: the errors raised by
`validateSecureUrl` (insecure scheme and malformed URL alike). -/
def IsInsecureUrlError : ZuthErr → Prop
  | .insecureUrl => True
  | .invalidUrl _ => True
  | _ => False

/-- The spec's `OAuthError` kind: the errors raised by `handleCallback`
before any exchange is attempted. -/
def IsOAuthError : ZuthErr → Prop
  | .oauthError _ => True
  | .codeNotFound => True
  | _ => False

instance : DecidablePred IsCsrfError := by
  intro e; cases e <;> simp [IsCsrfError] <;> infer_instance

instance : DecidablePred IsRedirectError := by
  intro e; cases e <;> simp [IsRedirectError] <;> infer_instance

instance : DecidablePred IsInsecureUrlError := by
  intro e; cases e <;> simp [IsInsecureUrlError] <;> infer_instance

instance : DecidablePred IsOAuthError := by
  intro e; cases e <;> simp [IsOAuthError] <;> infer_instance

/-! ## `src/security.ts` -/

/-- Embedding of `validateSecureUrl(url, allowLocalhost)` from `security.ts`.  The
`Invalid URL` rethrow in the source's `catch` corresponds to the
`parseURL = none` branch; the insecure-URL error thrown inside the `try`
passes the `catch`'s message test and is rethrown unchanged. -/
def validateSecureUrl (url : String) (allowLocalhost : Bool) : Except ZuthErr Unit :=
  match parseURL url with
  | none => .error (.invalidUrl url)
  | some u =>
    if allowLocalhost ∧ (u.hostname = "localhost" ∨ u.hostname = "127.0.0.1") then .ok ()
    else if u.protocol ≠ "https:" then .error .insecureUrl
    else .ok ()

/-- Embedding of `validateRedirectUri(redirectUri, allowedOrigins)` from `security.ts`:
origin is `protocol + "//" + host` and must be a literal member of the
allow-list; a parse failure is reported as the function's own
`Invalid redirect URI` error, not the parser's. -/
def validateRedirectUri (redirectUri : String) (allowedOrigins : List String) :
    Except ZuthErr Unit :=
  match parseURL redirectUri with
  | none => .error (.invalidRedirectUri redirectUri)
  | some u =>
    let origin := u.protocol ++ "//" ++ u.host
    if origin ∈ allowedOrigins then .ok ()
    else .error (.redirectNotAllowed redirectUri allowedOrigins)

/-- Lowercase hexadecimal digit. -/
def hexLower (n : Nat) : Char :=
  if n < 10 then Char.ofNat (48 + n) else Char.ofNat (87 + n)

/-- Rendering `byte.toString(16).padStart(2, '0')` of a byte. -/
def byteToHex (b : Fin 256) : String :=
  String.mk [hexLower (b.val / 16), hexLower (b.val % 16)]

/-- Embedding of `generateOAuthState()` from `security.ts`, with the CSPRNG output (the
filled 32-entry `Uint8Array`) passed in explicitly: renders each byte as
two zero-padded lowercase hex digits and concatenates. -/
def generateOAuthState (array : List (Fin 256)) : String :=
  String.join (array.map byteToHex)

/-- Embedding of `validateOAuthState(receivedState, originalState)` from `security.ts`.
The source's `if (!receivedState)` is a truthiness test, so the empty
string takes the `missing` branch. -/
def validateOAuthState (receivedState : Option String) (originalState : String) :
    Except ZuthErr Unit :=
  match receivedState with
  | none => .error .csrfMissing
  | some s =>
    if s = "" then .error .csrfMissing
    else if s ≠ originalState then .error .csrfMismatch
    else .ok ()

/-- Characters accepted by the pieces of the `isValidEmail` regex
(`[^\s@]`). -/
def emailChar (c : Char) : Bool := ¬ c.isWhitespace ∧ c ≠ '@'

/-- Embedding of `isValidEmail(email)` from `security.ts`: the regex
`^[^\s@]+@[^\s@]+\.[^\s@]+$` — one `@`, non-empty local part, and a domain
containing an interior dot. -/
def isValidEmail (email : String) : Bool :=
  match splitOnChar '@' email.toList with
  | [lpart, domain] =>
    lpart ≠ [] ∧ lpart.all emailChar ∧ domain.all emailChar ∧
    ((domain.drop 1).dropLast).contains '.'
  | _ => false

/-! ## `src/client.ts` (Transport) -/

/-- The Transport's mutable state: the single bearer-token slot, plus the
configured base URL (read by the OAuth coordinator). -/
structure ClientState where
  baseUrl : String
  accessToken : Option String := none
deriving Repr, DecidableEq

namespace ZuthClient

/-- Embedding of `setAccessToken(token)` from `client.ts`. -/
def setAccessToken (st : ClientState) (token : Option String) : ClientState :=
  { st with accessToken := token }

/-- Embedding of `getAccessToken()` from `client.ts`. -/
def getAccessToken (st : ClientState) : Option String :=
  st.accessToken

/-- Embedding of `clearAccessToken()` from `client.ts`. -/
def clearAccessToken (st : ClientState) : ClientState :=
  { st with accessToken := none }

/-- Embedding of `getBaseUrl()` from `client.ts`. -/
def getBaseUrl (st : ClientState) : String :=
  st.baseUrl

/-- The request interceptor from `setupInterceptors`: attach the bearer
header only when the stored token is truthy (`if (this.accessToken)`),
i.e. non-null and non-empty. -/
def attachAuthHeader (st : ClientState) (headers : List (String × String)) :
    List (String × String) :=
  if truthyStr st.accessToken then
    headers ++ [("Authorization", "Bearer " ++ (st.accessToken.getD ""))]
  else headers

/-- The three failure shapes an axios request can end in, as the response
interceptor distinguishes them: `error.response` set (server responded),
else `error.request` set (sent, no response), else neither (the request
could not be constructed or sent). -/
inductive AxiosFailure where
  | response (data : ZuthErrorPayload) (status : Nat)
  | requestNoResponse
  | setupFailure (message : Option String)
deriving Repr, DecidableEq

/-- The response interceptor's error handler from `setupInterceptors`:
every failure becomes a `ZuthSDKError`, with `||`-style (falsy) defaults
for the payload's fields. -/
def normalizeError : AxiosFailure → ZuthSDKError
  | .response data status =>
    { message := truthyOr data.message "An error occurred"
      statusCode := truthyOrNat data.statusCode status
      error := truthyOr data.error "UnknownError"
      details := data.details }
  | .requestNoResponse =>
    { message := "Network error: Unable to reach the server"
      statusCode := 0
      error := "NetworkError"
      details := none }
  | .setupFailure msg =>
    { message := truthyOr msg "An unexpected error occurred"
      statusCode := 0
      error := "UnknownError"
      details := none }

end ZuthClient

/-! ## `src/oauth.ts` (the coordinator with CSRF/redirect validation) -/

deriving instance DecidableEq for Except

/-- Outcome of an OAuth coordinator operation: its result, the Transport
state afterwards, and how many calls hit the `/oauth/token` exchange
endpoint. -/
structure CallOutcome where
  result : Except ZuthErr OAuthTokenResponse
  finalState : ClientState
  exchangeCalls : Nat
deriving Repr, DecidableEq

/-- The server's answer to a single POST, supplied by the environment:
either a decoded `OAuthTokenResponse` or a normalized transport error. -/
def PostOracle := Except ZuthSDKError OAuthTokenResponse

namespace ZuthOAuth

/-- Embedding of `getAuthorizationUrl(params, allowedOrigins?)` from `oauth.ts`.
`genState` is the value `generateOAuthState()` would produce, supplied
explicitly.  The allow-list check runs only when the list is supplied
and non-empty (`allowedOrigins && allowedOrigins.length > 0`); the state
defaults through JS truthiness (`params.state || generateOAuthState()`). -/
def getAuthorizationUrl (st : ClientState) (genState : String)
    (params : OAuthAuthorizeParams) (allowedOrigins : Option (List String)) :
    Except ZuthErr OAuthAuthorizationResult :=
  let check : Except ZuthErr Unit :=
    match allowedOrigins with
    | some origins =>
      if origins.length > 0 then validateRedirectUri params.redirectUri origins
      else .ok ()
    | none => .ok ()
  match check with
  | .error e => .error e
  | .ok _ =>
    let state := truthyOr params.state genState
    let baseUrl := ZuthClient.getBaseUrl st
    let query := serializePairs
      [("client_id", params.clientId),
       ("redirect_uri", params.redirectUri),
       ("response_type", truthyOr params.responseType "code"),
       ("scope", truthyOr params.scope "openid profile email"),
       ("state", state)]
    .ok { url := baseUrl ++ "/oauth/authorize?" ++ query, state := state }

/-- Embedding of `exchangeCodeForToken(data)` from `oauth.ts`: one POST to
`/oauth/token`; on a response whose `access_token` is truthy, install it
into the Transport. -/
def exchangeCodeForToken (st : ClientState) (oracle : PostOracle)
    (data : OAuthTokenRequest) : CallOutcome :=
  match oracle with
  | .error e => { result := .error (.sdk e), finalState := st, exchangeCalls := 1 }
  | .ok response =>
    let st' :=
      if response.access_token ≠ "" then ZuthClient.setAccessToken st (some response.access_token)
      else st
    { result := .ok response, finalState := st', exchangeCalls := 1 }

/-- Embedding of `refreshToken(refreshToken, clientId)` from `oauth.ts`: one POST to
`/oauth/token` with the refresh grant; same truthy auto-install. -/
def refreshToken (st : ClientState) (oracle : PostOracle)
    (theRefreshToken : String) (clientId : String) : CallOutcome :=
  match oracle with
  | .error e => { result := .error (.sdk e), finalState := st, exchangeCalls := 1 }
  | .ok response =>
    let st' :=
      if response.access_token ≠ "" then ZuthClient.setAccessToken st (some response.access_token)
      else st
    { result := .ok response, finalState := st', exchangeCalls := 1 }

/-- Embedding of `handleCallback(url, clientId, clientSecret, redirectUri, originalState?)`
from `oauth.ts`.  Order of the source: parse the URL, read `code`,
`error` and `state` from its query, fail on a truthy `error`, fail on a
falsy `code`, then — only when `originalState` is truthy — run
`validateOAuthState`; finally exchange the code.  (The
`console.warn` taken when a state arrives unvalidated is a log line with
no effect on the result and is not modelled.) -/
def handleCallback (st : ClientState) (oracle : PostOracle)
    (url : String) (clientId : String) (clientSecret : Option String)
    (redirectUri : Option String) (originalState : Option String) : CallOutcome :=
  match parseURL url with
  | none => { result := .error (.invalidUrl url), finalState := st, exchangeCalls := 0 }
  | some urlObj =>
    let code := urlObj.searchGet "code"
    let errParam := urlObj.searchGet "error"
    let receivedState := urlObj.searchGet "state"
    if truthyStr errParam then
      { result := .error (.oauthError (errParam.getD "")), finalState := st, exchangeCalls := 0 }
    else if ¬ truthyStr code then
      { result := .error .codeNotFound, finalState := st, exchangeCalls := 0 }
    else
      let proceed :=
        if truthyStr originalState then
          validateOAuthState receivedState (originalState.getD "")
        else .ok ()
      match proceed with
      | .error e => { result := .error e, finalState := st, exchangeCalls := 0 }
      | .ok _ =>
        exchangeCodeForToken st oracle
          { code := code.getD ""
            clientId := clientId
            clientSecret := clientSecret
            redirectUri := redirectUri.getD (urlObj.origin ++ urlObj.pathname) }

end ZuthOAuth

/-! ## `src/auth.ts` (login only — the path that installs a token) -/

structure LoginRequest where
  email : String
  password : String
deriving Repr, DecidableEq

structure LoginResponse where
  access_token : String
deriving Repr, DecidableEq

namespace ZuthAuth

/-- Outcome of `login`: result, Transport state, number of POSTs issued. -/
structure LoginOutcome where
  result : Except ZuthErr LoginResponse
  finalState : ClientState
  postCalls : Nat
deriving Repr, DecidableEq

/-- Embedding of `login(data)` from `auth.ts`: validate the email, POST to
`/auth/login`, and on success unconditionally install
`response.access_token`. -/
def login (st : ClientState) (oracle : Except ZuthSDKError LoginResponse)
    (data : LoginRequest) : LoginOutcome :=
  if ¬ isValidEmail data.email then
    { result := .error .invalidEmail, finalState := st, postCalls := 0 }
  else
    match oracle with
    | .error e => { result := .error (.sdk e), finalState := st, postCalls := 1 }
    | .ok response =>
      { result := .ok response
        finalState := ZuthClient.setAccessToken st (some response.access_token)
        postCalls := 1 }

end ZuthAuth

/-! ## `src/index.ts` (Facade) -/

namespace Zuth

/-- The `Zuth` constructor: fail when `baseUrl` is falsy, then strip one
trailing slash (`replace(/\/$/, '')`) before building the client. -/
def make (config : ZuthConfig) : Except ZuthErr ClientState :=
  if config.baseUrl = "" then .error .configErr
  else
    .ok { baseUrl :=
            if config.baseUrl.endsWith "/" then (config.baseUrl.dropRight 1)
            else config.baseUrl
          accessToken := none }

/-- Embedding of `Zuth.setAccessToken(token)`: forwards the (string) token to the client. -/
def setAccessToken (st : ClientState) (token : String) : ClientState :=
  ZuthClient.setAccessToken st (some token)

/-- Embedding of `Zuth.isAuthenticated()`: `getAccessToken() !== null`. -/
def isAuthenticated (st : ClientState) : Bool :=
  ZuthClient.getAccessToken st ≠ none

/-- Embedding of `Zuth.clearAuth()`: clears the client's token slot. -/
def clearAuth (st : ClientState) : ClientState :=
  ZuthClient.clearAccessToken st

end Zuth

/-! ## Shared fixtures and helper lemmas -/

/-- A Transport state as built by the `Zuth` constructor. -/
def st0 : ClientState := { baseUrl := "https://api.zuth.example.com" }

/-- A successful token response with a non-empty access token. -/
def resp0 : OAuthTokenResponse :=
  { access_token := "tok", token_type := "Bearer", expires_in := 3600 }

/-! Sanity checks of the platform model on concrete values. -/

example : parseURL "https://app.test/cb?code=abc&state=WRONG" =
    some { protocol := "https:", hostname := "app.test", port := "",
           pathname := "/cb", searchRaw := "code=abc&state=WRONG" } := by decide

example : (parseURL "https://app.test/cb?code=abc&state=WRONG").map
    (fun u => (u.searchGet "code", u.searchGet "state", u.searchGet "error")) =
    some (some "abc", some "WRONG", none) := by decide

example : parseURL "not a url" = none := by decide

example : serializePairs [("client_id", "c1"), ("redirect_uri", "https://app.test/cb")] =
    "client_id=c1&redirect_uri=https%3A%2F%2Fapp.test%2Fcb" := by decide

example : formEncode "openid profile email" = "openid+profile+email" := by decide

example : isValidEmail "user@example.com" = true := by decide
example : isValidEmail "user@com" = false := by decide
example : isValidEmail "a@.a.b" = true := by decide
example : isValidEmail "a@b." = false := by decide


theorem strDataAppend (a b : String) : (a ++ b).data = a.data ++ b.data := by
  cases a; cases b; rfl

theorem strAppendAssoc (a b c : String) : a ++ b ++ c = a ++ (b ++ c) := by
  cases a with
  | mk x =>
    cases b with
    | mk y =>
      cases c with
      | mk z =>
        show String.mk (x ++ y ++ z) = String.mk (x ++ (y ++ z))
        rw [List.append_assoc]

theorem foldlAppendData (l : List String) (acc : String) :
    (l.foldl (fun r s => r ++ s) acc).data = acc.data ++ (l.map String.data).flatten := by
  induction l generalizing acc with
  | nil => simp
  | cons h t ih => simp [List.foldl_cons, ih, strDataAppend, List.append_assoc]

theorem generateOAuthState_data (array : List (Fin 256)) :
    (generateOAuthState array).data = ((array.map byteToHex).map String.data).flatten := by
  unfold generateOAuthState String.join
  rw [foldlAppendData]
  rfl

/-- The sixteen lowercase hexadecimal digits. -/
def hexLowerChars : List Char := "0123456789abcdef".toList

theorem hexLower_mem (n : Nat) (h : n < 16) : hexLower n ∈ hexLowerChars := by
  have : ∀ m : Fin 16, hexLower m.val ∈ hexLowerChars := by decide
  exact this ⟨n, h⟩

theorem sumMapConstTwo (l : List (Fin 256)) :
    (l.map (fun _ => (2 : Nat))).sum = 2 * l.length := by
  induction l with
  | nil => simp
  | cons h t ih => simp [ih]; ring

/-! ## Claim theorems -/

theorem mapLengthTwo (l : List (Fin 256)) :
    ((l.map byteToHex).map String.data).map List.length = l.map (fun _ => (2 : Nat)) := by
  induction l with
  | nil => rfl
  | cons b t ih =>
    simp only [List.map_cons, ih]
    rfl

/-- C9 (confirmed).  `generateOAuthState` renders each of the 32 random
bytes as two zero-padded lowercase hexadecimal digits, so its output is a
fixed-length string of exactly 64 hexadecimal characters. -/
theorem generateOAuthState_hex64 (array : List (Fin 256)) (h : array.length = 32) :
    (generateOAuthState array).length = 64 ∧
    (∀ c ∈ (generateOAuthState array).data, c ∈ hexLowerChars) ∧
    (∀ b : Fin 256, (byteToHex b).length = 2) := by
  refine ⟨?_, ?_, fun b => rfl⟩
  · show (generateOAuthState array).data.length = 64
    rw [generateOAuthState_data, List.length_flatten, mapLengthTwo, sumMapConstTwo, h]
  · intro c hc
    rw [generateOAuthState_data] at hc
    rcases List.mem_flatten.mp hc with ⟨piece, hpiece, hcp⟩
    rcases List.mem_map.mp hpiece with ⟨s, hs, rfl⟩
    rcases List.mem_map.mp hs with ⟨b, _, rfl⟩
    have hdata : (byteToHex b).data = [hexLower (b.val / 16), hexLower (b.val % 16)] := rfl
    rw [hdata] at hcp
    simp only [List.mem_cons, List.not_mem_nil, or_false] at hcp
    rcases hcp with hcp | hcp
    · rw [hcp]; exact hexLower_mem _ (by omega)
    · rw [hcp]; exact hexLower_mem _ (Nat.mod_lt _ (by omega))

/-- C9 witness: 32 zero bytes render to the all-zeros 64-character string. -/
theorem generateOAuthState_hex64_witness :
    (generateOAuthState (List.replicate 32 ⟨0, by omega⟩)).length = 64 :=
  (generateOAuthState_hex64 (List.replicate 32 ⟨0, by omega⟩) (by decide)).1

/-- C6 counterexample.  The claim says `validateState` succeeds whenever
`received` is present and character-for-character equal to `original`;
but for the pair `(some "", "")` — present and exactly equal — the
source's truthiness test `if (!receivedState)` takes the `missing`
branch and fails with a `CsrfError`. -/
theorem validateOAuthState_empty_equal_fails :
    (some "" = some ("" : String)) ∧
    validateOAuthState (some "") "" = .error .csrfMissing := by
  exact ⟨rfl, rfl⟩

/-- C6 (corrected).  `validateOAuthState` fails with a `CsrfError` when
`received` is absent **or empty**, fails with a `CsrfError` when
`received` differs from `original`, and succeeds exactly when `received`
is present, non-empty and equal (by exact string identity — Lean string
equality, no case-folding or trimming) to `original`. -/
theorem validateOAuthState_spec (received : Option String) (original : String) :
    (validateOAuthState received original = .ok () ↔
      received = some original ∧ original ≠ "") ∧
    (∀ e, validateOAuthState received original = .error e → IsCsrfError e) := by
  cases received with
  | none =>
    refine ⟨⟨fun h => Except.noConfusion h, fun h => Option.noConfusion h.1⟩, fun e he => ?_⟩
    have h1 : ZuthErr.csrfMissing = e := by injection he
    rw [← h1]
    trivial
  | some s =>
    have hval : validateOAuthState (some s) original =
        (if s = "" then Except.error ZuthErr.csrfMissing
         else if s ≠ original then Except.error ZuthErr.csrfMismatch
         else Except.ok ()) := rfl
    rw [hval]
    by_cases hs : s = ""
    · rw [if_pos hs]
      refine ⟨⟨fun h => Except.noConfusion h, fun h => ?_⟩, fun e he => ?_⟩
      · have h1 : s = original := by injection h.1
        exact absurd (hs ▸ h1).symm h.2
      · have h1 : ZuthErr.csrfMissing = e := by injection he
        rw [← h1]
        trivial
    · rw [if_neg hs]
      by_cases heq : s = original
      · rw [if_neg (fun hne => hne heq)]
        refine ⟨⟨fun _ => ⟨by rw [heq], fun h0 => hs (heq.trans h0)⟩, fun _ => rfl⟩,
          fun e he => Except.noConfusion he⟩
      · rw [if_pos heq]
        refine ⟨⟨fun h => Except.noConfusion h, fun h => ?_⟩, fun e he => ?_⟩
        · have h1 : s = original := by injection h.1
          exact absurd h1 heq
        · have h1 : ZuthErr.csrfMismatch = e := by injection he
          rw [← h1]
          trivial

/-- C6 witness: exact match on a non-empty state succeeds. -/
theorem validateOAuthState_spec_witness :
    validateOAuthState (some "S") "S" = .ok () :=
  (validateOAuthState_spec (some "S") "S").1.mpr ⟨rfl, by decide⟩

/-- C7 (confirmed).  `validateRedirectUri` succeeds exactly when the URI
parses and its origin (`protocol + "//" + host`) is a literal member of
the allow-list; every failure it reports — allow-list rejection and
malformed URI alike — is its own `RedirectError`-kind error, never a
passed-through parser error. -/
theorem validateRedirectUri_spec (uri : String) (allowed : List String) :
    (validateRedirectUri uri allowed = .ok () ↔
      ∃ u, parseURL uri = some u ∧ u.origin ∈ allowed) ∧
    (∀ e, validateRedirectUri uri allowed = .error e → IsRedirectError e) ∧
    (parseURL uri = none →
      validateRedirectUri uri allowed = .error (.invalidRedirectUri uri)) := by
  cases hp : parseURL uri with
  | none =>
    have hval : validateRedirectUri uri allowed = .error (.invalidRedirectUri uri) := by
      unfold validateRedirectUri
      rw [hp]
    rw [hval]
    refine ⟨⟨fun h => Except.noConfusion h, fun h => ?_⟩, fun e he => ?_, fun _ => rfl⟩
    · rcases h with ⟨u, hu, _⟩
      exact Option.noConfusion hu
    · have h1 : ZuthErr.invalidRedirectUri uri = e := by injection he
      rw [← h1]
      trivial
  | some u =>
    have hval : validateRedirectUri uri allowed =
        (if u.protocol ++ "//" ++ u.host ∈ allowed then Except.ok ()
         else Except.error (ZuthErr.redirectNotAllowed uri allowed)) := by
      unfold validateRedirectUri
      rw [hp]
    rw [hval]
    by_cases hmem : (u.protocol ++ "//" ++ u.host) ∈ allowed
    · rw [if_pos hmem]
      refine ⟨⟨fun _ => ⟨u, rfl, hmem⟩, fun _ => rfl⟩, fun e he => Except.noConfusion he,
        fun h => ?_⟩
      exact Option.noConfusion h
    · rw [if_neg hmem]
      refine ⟨⟨fun h => Except.noConfusion h, fun h => ?_⟩, fun e he => ?_, fun h => ?_⟩
      · rcases h with ⟨u', hu', hmem'⟩
        injection hu' with hu'
        subst hu'
        exact absurd hmem' hmem
      · have h1 : ZuthErr.redirectNotAllowed uri allowed = e := by injection he
        rw [← h1]
        trivial
      · exact Option.noConfusion h

/-- C7 witness: an allow-listed redirect URI passes, concretely. -/
theorem validateRedirectUri_spec_witness :
    validateRedirectUri "https://app.test/cb" ["https://app.test"] = .ok () :=
  (validateRedirectUri_spec "https://app.test/cb" ["https://app.test"]).1.mpr
    ⟨{ protocol := "https:", hostname := "app.test", port := "", pathname := "/cb",
       searchRaw := "" }, by decide, by decide⟩

/-- C8 (confirmed).  `validateSecureUrl` succeeds exactly when the URL
parses and either its scheme is `https` or (`allowLocalhost` and the
hostname is a loopback host `localhost` / `127.0.0.1`); every failure —
insecure scheme and malformed URL alike — is an
`InsecureUrlError`-kind error raised by the function itself. -/
theorem validateSecureUrl_spec (url : String) (allowLocalhost : Bool) :
    (validateSecureUrl url allowLocalhost = .ok () ↔
      ∃ u, parseURL url = some u ∧
        (u.protocol = "https:" ∨
          (allowLocalhost = true ∧ (u.hostname = "localhost" ∨ u.hostname = "127.0.0.1")))) ∧
    (∀ e, validateSecureUrl url allowLocalhost = .error e → IsInsecureUrlError e) := by
  cases hp : parseURL url with
  | none =>
    have hval : validateSecureUrl url allowLocalhost = .error (.invalidUrl url) := by
      unfold validateSecureUrl
      rw [hp]
    rw [hval]
    refine ⟨⟨fun h => Except.noConfusion h, fun h => ?_⟩, fun e he => ?_⟩
    · rcases h with ⟨u, hu, _⟩
      exact Option.noConfusion hu
    · have h1 : ZuthErr.invalidUrl url = e := by injection he
      rw [← h1]
      trivial
  | some u =>
    have hval : validateSecureUrl url allowLocalhost =
        (if allowLocalhost = true ∧ (u.hostname = "localhost" ∨ u.hostname = "127.0.0.1") then
          Except.ok ()
         else if u.protocol ≠ "https:" then Except.error ZuthErr.insecureUrl
         else Except.ok ()) := by
      unfold validateSecureUrl
      rw [hp]
    rw [hval]
    by_cases hloc : allowLocalhost = true ∧ (u.hostname = "localhost" ∨ u.hostname = "127.0.0.1")
    · rw [if_pos hloc]
      exact ⟨⟨fun _ => ⟨u, rfl, Or.inr hloc⟩, fun _ => rfl⟩, fun e he => Except.noConfusion he⟩
    · rw [if_neg hloc]
      by_cases hsec : u.protocol = "https:"
      · rw [if_neg (fun hne => hne hsec)]
        exact ⟨⟨fun _ => ⟨u, rfl, Or.inl hsec⟩, fun _ => rfl⟩, fun e he => Except.noConfusion he⟩
      · rw [if_pos hsec]
        refine ⟨⟨fun h => Except.noConfusion h, fun h => ?_⟩, fun e he => ?_⟩
        · rcases h with ⟨u', hu', hcase⟩
          injection hu' with hu'
          subst hu'
          rcases hcase with h | h
          · exact absurd h hsec
          · exact absurd h hloc
        · have h1 : ZuthErr.insecureUrl = e := by injection he
          rw [← h1]
          trivial

/-- C8 witness: `http://localhost:3000` passes with the localhost
carve-out enabled, concretely (through the theorem). -/
theorem validateSecureUrl_spec_witness :
    validateSecureUrl "http://localhost:3000" true = .ok () :=
  (validateSecureUrl_spec "http://localhost:3000" true).1.mpr
    ⟨{ protocol := "http:", hostname := "localhost", port := "3000", pathname := "/",
       searchRaw := "" }, by decide, by decide⟩

/-- C10 (confirmed).  After `setAccessToken("")` the Facade reports
`isAuthenticated() = true` (the slot holds `some ""`, which is not
`null`), yet the request interceptor attaches no `Authorization` header,
because the header is attached exactly when the stored token is truthy
(non-null and non-empty). -/
theorem emptyToken_authenticated_no_header (st : ClientState)
    (headers : List (String × String)) :
    Zuth.isAuthenticated (Zuth.setAccessToken st "") = true ∧
    ZuthClient.attachAuthHeader (Zuth.setAccessToken st "") headers = headers ∧
    (∀ s : ClientState, truthyStr s.accessToken = false →
      ZuthClient.attachAuthHeader s headers = headers) ∧
    (∀ s : ClientState, truthyStr s.accessToken = true →
      ZuthClient.attachAuthHeader s headers =
        headers ++ [("Authorization", "Bearer " ++ (s.accessToken.getD ""))]) := by
  refine ⟨rfl, ?_, fun s hs => ?_, fun s hs => ?_⟩
  · show ZuthClient.attachAuthHeader { st with accessToken := some "" } headers = headers
    simp [ZuthClient.attachAuthHeader, truthyStr]
  · simp [ZuthClient.attachAuthHeader, hs]
  · simp [ZuthClient.attachAuthHeader, hs]

/-- C10 witness: concretely, with one base header. -/
theorem emptyToken_authenticated_no_header_witness :
    Zuth.isAuthenticated (Zuth.setAccessToken st0 "") = true ∧
    ZuthClient.attachAuthHeader (Zuth.setAccessToken st0 "")
      [("Content-Type", "application/json")] = [("Content-Type", "application/json")] :=
  ⟨(emptyToken_authenticated_no_header st0 [("Content-Type", "application/json")]).1,
   (emptyToken_authenticated_no_header st0 [("Content-Type", "application/json")]).2.1⟩

/-- C3 counterexample.  The claim fixes the no-response message to
`"Unable to reach the server"`, but the interceptor's message is
`"Network error: Unable to reach the server"`. -/
theorem normalizeError_network_message_cex :
    (ZuthClient.normalizeError .requestNoResponse).message =
      "Network error: Unable to reach the server" ∧
    "Network error: Unable to reach the server" ≠ "Unable to reach the server" :=
  ⟨rfl, by decide⟩

/-- C3 (corrected).  Every transport failure normalizes to a single
`ZuthSDKError` (by construction `normalizeError` is total, so no raw
library error escapes): a structured server payload supplies `message`,
`statusCode` and `error` kind with the defaults `"An error occurred"`,
the HTTP status, and `"UnknownError"` (a falsy field counts as absent);
no response at all yields message `"Network error: Unable to reach the
server"`, status 0, kind `"NetworkError"`; an unsendable request yields
status 0 and kind `"UnknownError"`. -/
theorem normalizeError_spec (data : ZuthErrorPayload) (status : Nat) (msg : Option String) :
    (∀ m, data.message = some m → m ≠ "" →
      (ZuthClient.normalizeError (.response data status)).message = m) ∧
    (truthyStr data.message = false →
      (ZuthClient.normalizeError (.response data status)).message = "An error occurred") ∧
    (∀ k, data.error = some k → k ≠ "" →
      (ZuthClient.normalizeError (.response data status)).error = k) ∧
    (truthyStr data.error = false →
      (ZuthClient.normalizeError (.response data status)).error = "UnknownError") ∧
    (∀ n, data.statusCode = some n → n ≠ 0 →
      (ZuthClient.normalizeError (.response data status)).statusCode = n) ∧
    ((data.statusCode = none ∨ data.statusCode = some 0) →
      (ZuthClient.normalizeError (.response data status)).statusCode = status) ∧
    (ZuthClient.normalizeError .requestNoResponse =
      { message := "Network error: Unable to reach the server", statusCode := 0,
        error := "NetworkError", details := none }) ∧
    ((ZuthClient.normalizeError (.setupFailure msg)).statusCode = 0 ∧
      (ZuthClient.normalizeError (.setupFailure msg)).error = "UnknownError") := by
  refine ⟨fun m hm hne => ?_, fun hf => ?_, fun k hk hne => ?_, fun hf => ?_,
    fun n hn hne => ?_, fun hz => ?_, rfl, rfl, rfl⟩
  · simp [ZuthClient.normalizeError, truthyOr, hm, hne]
  · cases hd : data.message with
    | none => simp [ZuthClient.normalizeError, truthyOr, hd]
    | some m =>
      rw [hd] at hf
      have hm : m = "" := by simpa [truthyStr] using hf
      simp [ZuthClient.normalizeError, truthyOr, hd, hm]
  · simp [ZuthClient.normalizeError, truthyOr, hk, hne]
  · cases hd : data.error with
    | none => simp [ZuthClient.normalizeError, truthyOr, hd]
    | some k =>
      rw [hd] at hf
      have hk : k = "" := by simpa [truthyStr] using hf
      simp [ZuthClient.normalizeError, truthyOr, hd, hk]
  · simp [ZuthClient.normalizeError, truthyOrNat, hn, hne]
  · rcases hz with hz | hz <;> simp [ZuthClient.normalizeError, truthyOrNat, hz]

/-- C1 counterexample.  The claim quantifies over every pair
`(original, received)`; for `original = ""` (supplied) and
`received = "x" ≠ ""`, the source's truthiness guard
`if (originalState)` skips validation entirely, so `handleCallback`
performs the exchange (one exchange-endpoint call, a successful result)
instead of failing with a `CsrfError`. -/
theorem handleCallback_emptyOriginal_cex :
    ("x" : String) ≠ "" ∧
    (ZuthOAuth.handleCallback st0 (Except.ok resp0)
      "https://app.test/cb?code=abc&state=x" "c1" none none (some "")).exchangeCalls = 1 ∧
    (ZuthOAuth.handleCallback st0 (Except.ok resp0)
      "https://app.test/cb?code=abc&state=x" "c1" none none (some "")).result =
      Except.ok resp0 := by
  refine ⟨by decide, by decide, by decide⟩

/-- C1 (corrected).  For every parseable callback URL that carries a
truthy `code` and no truthy `error`, and every supplied **non-empty**
`originalState` that the callback's `state` does not match (absent,
empty, or different), `handleCallback` fails with a `CsrfError`, leaves
the Transport untouched and performs zero exchange-endpoint calls. -/
theorem handleCallback_csrf (st : ClientState) (oracle : PostOracle)
    (url clientId : String) (clientSecret redirectUri : Option String)
    (original : String) (u : URL)
    (hparse : parseURL url = some u)
    (herr : truthyStr (u.searchGet "error") = false)
    (hcode : truthyStr (u.searchGet "code") = true)
    (horig : original ≠ "")
    (hstate : u.searchGet "state" ≠ some original) :
    ∃ e, ZuthOAuth.handleCallback st oracle url clientId clientSecret redirectUri
        (some original) =
        { result := .error e, finalState := st, exchangeCalls := 0 } ∧ IsCsrfError e := by
  have ht : truthyStr (some original) = true := by simp [truthyStr, horig]
  unfold ZuthOAuth.handleCallback
  rw [hparse]
  simp only [herr, hcode, ht, Bool.false_eq_true, if_false, Bool.not_true, Option.getD_some]
  cases hst : u.searchGet "state" with
  | none =>
    refine ⟨.csrfMissing, ?_, trivial⟩
    simp [validateOAuthState]
  | some s =>
    by_cases hs : s = ""
    · refine ⟨.csrfMissing, ?_, trivial⟩
      simp [validateOAuthState, hs]
    · have hne : s ≠ original := by
        intro hcontra
        rw [hst, hcontra] at hstate
        exact hstate rfl
      refine ⟨.csrfMismatch, ?_, trivial⟩
      simp [validateOAuthState, hs, hne]

/-- C1 witness: the spec's own scenario — mismatched state `WRONG`
against original `S` fails with a `CsrfError` and zero exchange calls. -/
theorem handleCallback_csrf_witness :
    ∃ e, ZuthOAuth.handleCallback st0 (Except.ok resp0)
        "https://app.test/cb?code=abc&state=WRONG" "c1" none none (some "S") =
        { result := .error e, finalState := st0, exchangeCalls := 0 } ∧ IsCsrfError e :=
  handleCallback_csrf st0 (Except.ok resp0) "https://app.test/cb?code=abc&state=WRONG" "c1"
    none none "S"
    { protocol := "https:", hostname := "app.test", port := "", pathname := "/cb",
      searchRaw := "code=abc&state=WRONG" }
    (by decide) (by decide) (by decide) (by decide) (by decide)

/-- C4 counterexample.  The claim covers every callback URL containing an
`error` parameter; for `?error=&code=abc` the parameter is present (the
parsed value is the empty string) yet the truthiness guard `if (error)`
ignores it, and `handleCallback` performs the exchange (one network
call) instead of failing with an `OAuthError`. -/
theorem handleCallback_emptyError_cex :
    (parseURL "https://app.test/cb?error=&code=abc").map (fun u => u.searchGet "error") =
      some (some "") ∧
    (ZuthOAuth.handleCallback st0 (Except.ok resp0)
      "https://app.test/cb?error=&code=abc" "c1" none none none).exchangeCalls = 1 := by
  refine ⟨by decide, by decide⟩

/-- C4 (corrected).  For every parseable callback URL: a **non-empty**
`error` parameter makes `handleCallback` fail with an `OAuthError`
carrying that code, and zero network calls are issued; and a URL lacking
both `code` and `error` makes it fail with the `OAuthError`
"authorization code not found", again with zero network calls. -/
theorem handleCallback_terminal (st : ClientState) (oracle : PostOracle)
    (url clientId : String) (clientSecret redirectUri originalState : Option String)
    (u : URL) (hparse : parseURL url = some u) :
    (∀ ec, u.searchGet "error" = some ec → ec ≠ "" →
      ZuthOAuth.handleCallback st oracle url clientId clientSecret redirectUri originalState =
        { result := .error (.oauthError ec), finalState := st, exchangeCalls := 0 }) ∧
    (u.searchGet "error" = none → u.searchGet "code" = none →
      ZuthOAuth.handleCallback st oracle url clientId clientSecret redirectUri originalState =
        { result := .error .codeNotFound, finalState := st, exchangeCalls := 0 }) := by
  constructor
  · intro ec hec hne
    have ht : truthyStr (some ec) = true := by simp [truthyStr, hne]
    unfold ZuthOAuth.handleCallback
    rw [hparse]
    simp [hec, ht]
  · intro herr hcode
    have ht : truthyStr (u.searchGet "error") = false := by simp [truthyStr, herr]
    have hc : truthyStr (u.searchGet "code") = false := by simp [truthyStr, hcode]
    unfold ZuthOAuth.handleCallback
    rw [hparse]
    simp [ht, hc]

/-- C4 witness: a denied authorization and a bare callback, concretely. -/
theorem handleCallback_terminal_witness :
    ZuthOAuth.handleCallback st0 (Except.ok resp0)
      "https://app.test/cb?error=access_denied" "c1" none none none =
      { result := .error (.oauthError "access_denied"), finalState := st0,
        exchangeCalls := 0 } ∧
    ZuthOAuth.handleCallback st0 (Except.ok resp0)
      "https://app.test/cb?foo=bar" "c1" none none none =
      { result := .error .codeNotFound, finalState := st0, exchangeCalls := 0 } :=
  ⟨(handleCallback_terminal st0 (Except.ok resp0)
      "https://app.test/cb?error=access_denied" "c1" none none none
      { protocol := "https:", hostname := "app.test", port := "", pathname := "/cb",
        searchRaw := "error=access_denied" }
      (by decide)).1 "access_denied" (by decide) (by decide),
   (handleCallback_terminal st0 (Except.ok resp0)
      "https://app.test/cb?foo=bar" "c1" none none none
      { protocol := "https:", hostname := "app.test", port := "", pathname := "/cb",
        searchRaw := "foo=bar" }
      (by decide)).2 (by decide) (by decide)⟩

/-- C3 witness: a 500 with a malformed (empty) body gets the defaults. -/
theorem normalizeError_spec_witness :
    (ZuthClient.normalizeError (.response {} 500)).message = "An error occurred" ∧
    (ZuthClient.normalizeError (.response {} 500)).statusCode = 500 ∧
    (ZuthClient.normalizeError (.response {} 500)).error = "UnknownError" :=
  ⟨(normalizeError_spec {} 500 none).2.1 rfl,
   (normalizeError_spec {} 500 none).2.2.2.2.2.1 (Or.inl rfl),
   (normalizeError_spec {} 500 none).2.2.2.1 rfl⟩

theorem serializeFiveQuery (v1 v2 v3 v4 v5 : String) :
    serializePairs [("client_id", v1), ("redirect_uri", v2), ("response_type", v3),
      ("scope", v4), ("state", v5)] =
    "client_id" ++ "=" ++ formEncode v1 ++ "&" ++
    "redirect_uri" ++ "=" ++ formEncode v2 ++ "&" ++
    "response_type" ++ "=" ++ formEncode v3 ++ "&" ++
    "scope" ++ "=" ++ formEncode v4 ++ "&" ++
    "state" ++ "=" ++ formEncode v5 := by
  have h1 : formEncode "client_id" = "client_id" := by decide
  have h2 : formEncode "redirect_uri" = "redirect_uri" := by decide
  have h3 : formEncode "response_type" = "response_type" := by decide
  have h4 : formEncode "scope" = "scope" := by decide
  have h5 : formEncode "state" = "state" := by decide
  simp only [serializePairs, h1, h2, h3, h4, h5, strAppendAssoc]

/-- C2 counterexample.  The claim says a supplied allow-list always runs
the redirect validation and no URL is built on failure; but for the
supplied **empty** list, `validateRedirectUri` would reject any URI while
`getAuthorizationUrl` skips validation (the guard requires
`allowedOrigins.length > 0`) and happily builds the URL. -/
theorem getAuthorizationUrl_emptyAllowList_cex :
    validateRedirectUri "https://evil.example/cb" [] =
      .error (.redirectNotAllowed "https://evil.example/cb" []) ∧
    ZuthOAuth.getAuthorizationUrl st0 "GEN"
      { clientId := "c1", redirectUri := "https://evil.example/cb", state := some "S" }
      (some []) =
      .ok { url := "https://api.zuth.example.com/oauth/authorize?client_id=c1&redirect_uri=https%3A%2F%2Fevil.example%2Fcb&response_type=code&scope=openid+profile+email&state=S",
            state := "S" } :=
  ⟨by decide, by decide⟩

/-- C2 (corrected).  For every supplied **non-empty** allow-list,
`getAuthorizationUrl` runs the redirect validation first and on failure
returns that error and builds no URL; on success it returns the state it
used (the caller's truthy `params.state`, otherwise the generated one)
together with a URL whose query is exactly `client_id`, `redirect_uri`,
`response_type` (default `code`), `scope` (default
`openid profile email`) and `state`, each value form-urlencoded. -/
theorem getAuthorizationUrl_spec (st : ClientState) (genState : String)
    (params : OAuthAuthorizeParams) (origins : List String) (hne : origins ≠ []) :
    (∀ e, validateRedirectUri params.redirectUri origins = .error e →
      ZuthOAuth.getAuthorizationUrl st genState params (some origins) = .error e) ∧
    (validateRedirectUri params.redirectUri origins = .ok () →
      ZuthOAuth.getAuthorizationUrl st genState params (some origins) =
        .ok { url := ZuthClient.getBaseUrl st ++ "/oauth/authorize?" ++
                ("client_id" ++ "=" ++ formEncode params.clientId ++ "&" ++
                 "redirect_uri" ++ "=" ++ formEncode params.redirectUri ++ "&" ++
                 "response_type" ++ "=" ++ formEncode (truthyOr params.responseType "code") ++
                 "&" ++
                 "scope" ++ "=" ++ formEncode (truthyOr params.scope "openid profile email") ++
                 "&" ++
                 "state" ++ "=" ++ formEncode (truthyOr params.state genState)),
              state := truthyOr params.state genState }) ∧
    (params.state = none → truthyOr params.state genState = genState) := by
  have hlen : origins.length > 0 := List.length_pos.mpr hne
  refine ⟨fun e he => ?_, fun hok => ?_, fun hs => by rw [hs]; rfl⟩
  · unfold ZuthOAuth.getAuthorizationUrl
    simp only [if_pos hlen, he]
  · unfold ZuthOAuth.getAuthorizationUrl
    simp only [if_pos hlen, hok]
    rw [serializeFiveQuery]

/-- C2 witness: the spec's own scenario — no explicit state, generated
state `GEN` is used and returned, defaults applied. -/
theorem getAuthorizationUrl_spec_witness :
    ZuthOAuth.getAuthorizationUrl st0 "GEN"
      { clientId := "c1", redirectUri := "https://app.test/cb" }
      (some ["https://app.test"]) =
      .ok { url := "https://api.zuth.example.com/oauth/authorize?client_id=c1&redirect_uri=https%3A%2F%2Fapp.test%2Fcb&response_type=code&scope=openid+profile+email&state=GEN",
            state := "GEN" } :=
  (getAuthorizationUrl_spec st0 "GEN"
    { clientId := "c1", redirectUri := "https://app.test/cb" }
    ["https://app.test"] (by decide)).2.1 (by decide)

/-- A configuration fixture for the Facade. -/
def cfg0 : ZuthConfig := { baseUrl := "https://api.zuth.example.com" }

/-- A token-request fixture. -/
def req0 : OAuthTokenRequest :=
  { code := "abc", clientId := "c1", redirectUri := "https://app.test/cb" }

/-- C5 (confirmed).  `isAuthenticated()` is false right after
construction and right after `clearAuth`; it is true right after
`setAccessToken`, after a successful `login`, and after a successful
code exchange or refresh whose response carries a non-empty access
token — and in the last two cases the response's token is installed into
the Transport slot with no extra caller step. -/
theorem isAuthenticated_lifecycle
    (config : ZuthConfig) (st : ClientState) (token : String)
    (loginOracle : Except ZuthSDKError LoginResponse) (oracle : PostOracle)
    (loginData : LoginRequest) (tokenData : OAuthTokenRequest)
    (refreshTok cid : String) :
    (∀ s, Zuth.make config = .ok s → Zuth.isAuthenticated s = false) ∧
    (Zuth.isAuthenticated (Zuth.clearAuth st) = false) ∧
    (Zuth.isAuthenticated (Zuth.setAccessToken st token) = true) ∧
    (∀ r, (ZuthAuth.login st loginOracle loginData).result = .ok r →
      Zuth.isAuthenticated (ZuthAuth.login st loginOracle loginData).finalState = true) ∧
    (∀ r, (ZuthOAuth.exchangeCodeForToken st oracle tokenData).result = .ok r →
      r.access_token ≠ "" →
      Zuth.isAuthenticated (ZuthOAuth.exchangeCodeForToken st oracle tokenData).finalState =
        true ∧
      (ZuthOAuth.exchangeCodeForToken st oracle tokenData).finalState.accessToken =
        some r.access_token) ∧
    (∀ r, (ZuthOAuth.refreshToken st oracle refreshTok cid).result = .ok r →
      r.access_token ≠ "" →
      Zuth.isAuthenticated (ZuthOAuth.refreshToken st oracle refreshTok cid).finalState =
        true ∧
      (ZuthOAuth.refreshToken st oracle refreshTok cid).finalState.accessToken =
        some r.access_token) := by
  refine ⟨fun s hs => ?_, ?_, ?_, fun r hr => ?_, fun r hr hne => ?_, fun r hr hne => ?_⟩
  · unfold Zuth.make at hs
    by_cases hb : config.baseUrl = ""
    · rw [if_pos hb] at hs
      exact Except.noConfusion hs
    · rw [if_neg hb] at hs
      have h1 := (Except.ok.injEq _ _).mp hs
      rw [← h1]
      rfl
  · simp [Zuth.isAuthenticated, Zuth.clearAuth, ZuthClient.clearAccessToken,
      ZuthClient.getAccessToken]
  · simp [Zuth.isAuthenticated, Zuth.setAccessToken, ZuthClient.setAccessToken,
      ZuthClient.getAccessToken]
  · unfold ZuthAuth.login at hr ⊢
    by_cases hv : isValidEmail loginData.email
    · rw [if_neg (fun hq => hq hv)] at hr ⊢
      cases loginOracle with
      | error e => exact Except.noConfusion hr
      | ok resp =>
        simp [Zuth.isAuthenticated, ZuthClient.setAccessToken, ZuthClient.getAccessToken]
    · rw [if_pos (fun hq => absurd hq hv)] at hr
      exact Except.noConfusion hr
  · unfold ZuthOAuth.exchangeCodeForToken at hr ⊢
    cases oracle with
    | error e => exact Except.noConfusion hr
    | ok resp =>
      dsimp only at hr ⊢
      have h1 : resp = r := by injection hr
      subst h1
      rw [if_pos hne]
      exact ⟨rfl, rfl⟩
  · unfold ZuthOAuth.refreshToken at hr ⊢
    cases oracle with
    | error e => exact Except.noConfusion hr
    | ok resp =>
      dsimp only at hr ⊢
      have h1 : resp = r := by injection hr
      subst h1
      rw [if_pos hne]
      exact ⟨rfl, rfl⟩

/-- C5 witness: a concrete successful exchange leaves the Facade
authenticated with the returned token. -/
theorem isAuthenticated_lifecycle_witness :
    Zuth.isAuthenticated
      (ZuthOAuth.exchangeCodeForToken st0 (Except.ok resp0) req0).finalState = true ∧
    (ZuthOAuth.exchangeCodeForToken st0 (Except.ok resp0) req0).finalState.accessToken =
      some resp0.access_token :=
  (isAuthenticated_lifecycle cfg0 st0 "t" (Except.ok { access_token := "tok" })
    (Except.ok resp0) { email := "user@example.com", password := "pw" } req0
    "r" "c").2.2.2.2.1 resp0 rfl (by decide)
